import Mathlib

/-!
Verification of the ENTREGA backend's box-premium aggregation
(`Backend/routers/caixas.py`) and payment merger
(`Backend/routers/pagamento.py`).

The Python functions operate on pandas data frames whose cells are
dynamically typed.  The embedding models a cell as missing (`NaN`), a
number, or a string; floating point numbers are modelled by rationals
together with an explicit `NaN` element, and Python exceptions by
`Except`.  `datetime.date.today()` is passed in explicitly as the
parameter `hoje`, an epoch-day number.
-/

namespace Entrega

/-! ### Executable rationals and character-list string helpers

Finite Python floats are modelled by rationals.  The library `Rat` and
several core `String` operations do not reduce inside the kernel, so the
development carries its own always-normalized fraction type and its own
structural string helpers; every definition below evaluates by `decide`
or `rfl`. -/

/-- Fuelled Euclid: `mdcFuel f m n` equals `gcd m n` whenever `f > m`. -/
def mdcFuel : Nat → Nat → Nat → Nat
  | 0, _, n => n
  | fuel + 1, m, n => if m = 0 then n else mdcFuel fuel (n % m) m

/-- Greatest common divisor; `m + 1` units of fuel suffice because the
first argument strictly decreases at every step. -/
def mdc (m n : Nat) : Nat := mdcFuel (m + 1) m n

/-- A rational number in lowest terms with a positive denominator.  Every
`Frac` built by the operations below is normalized, so structural
equality is rational equality on all values the embedding produces. -/
structure Frac where
  num : Int
  den : Nat
deriving DecidableEq

/-- Builds the normalized fraction `n / d` (for `d ≠ 0`). -/
def Frac.normaliza (n : Int) (d : Nat) : Frac :=
  if d = 0 then ⟨0, 1⟩
  else
    let g := mdc n.natAbs d
    ⟨n / (g : Int), d / g⟩

/-- The integer `i` as a fraction. -/
def Frac.ofInt (i : Int) : Frac := ⟨i, 1⟩

instance (n : Nat) : OfNat Frac n := ⟨⟨(n : Int), 1⟩⟩

/-- Addition. -/
def Frac.soma (a b : Frac) : Frac :=
  Frac.normaliza (a.num * (b.den : Int) + b.num * (a.den : Int)) (a.den * b.den)

/-- Multiplication. -/
def Frac.vezes (a b : Frac) : Frac :=
  Frac.normaliza (a.num * b.num) (a.den * b.den)

/-- Negation (already normalized when the input is). -/
def Frac.neg (a : Frac) : Frac := ⟨-a.num, a.den⟩

/-- Strict order by cross multiplication. -/
def Frac.menor (a b : Frac) : Bool :=
  a.num * (b.den : Int) < b.num * (a.den : Int)

instance : Add Frac := ⟨Frac.soma⟩

/-- Truncation of a fraction toward zero, as Python `int(float)` and
pandas `astype(int)` do.  Both branches divide non-negative integers, so
the division convention does not matter. -/
def truncaFrac (q : Frac) : Int :=
  if 0 ≤ q.num then q.num / (q.den : Int) else -((-q.num) / (q.den : Int))

/-- Python's whitespace test for `str.strip()`. -/
def ehBranco (c : Char) : Bool :=
  c == ' ' || c == '\t' || c == '\n' || c == '\r'

/-- Python `str.strip()` on a character list. -/
def trimLista (l : List Char) : List Char :=
  ((l.dropWhile ehBranco).reverse.dropWhile ehBranco).reverse

/-- Python `str.strip()`. -/
def pyStrip (s : String) : String := ⟨trimLista s.data⟩

/-- Splitting on a one-character separator, as `str.split` / `splitOn` do. -/
def separaLista (sep : Char) : List Char → List (List Char)
  | [] => [[]]
  | c :: t =>
    match separaLista sep t with
    | [] => if c == sep then [[], []] else [[c]]
    | h :: t2 => if c == sep then [] :: h :: t2 else (c :: h) :: t2

/-- Accumulator for `digitosNat?`. -/
def digitosAux : List Char → Nat → Option Nat
  | [], acc => some acc
  | c :: t, acc =>
    if c.isDigit then digitosAux t (acc * 10 + (c.toNat - 48)) else none

/-- Parses a non-empty all-digit character list, like `String.toNat?`. -/
def digitosNat? : List Char → Option Nat
  | [] => none
  | l => digitosAux l 0

/-- Whether `p` is a prefix of `s` (`str.startswith`). -/
def comecaComLista : List Char → List Char → Bool
  | [], _ => true
  | _ :: _, [] => false
  | p :: pt, c :: ct => p == c && comecaComLista pt ct

/-- Python `s.startswith(p)`. -/
def comecaCom (p s : String) : Bool := comecaComLista p.data s.data

/-- Substring containment on character lists. -/
def contemSubLista (sub : List Char) : List Char → Bool
  | [] => sub.isEmpty
  | c :: t => comecaComLista sub (c :: t) || contemSubLista sub t

/-- Python's substring test `sub in s` on strings. -/
def contemSub (sub s : String) : Bool := contemSubLista sub.data s.data

/-- The decimal digit character for `n < 10`. -/
def digitoChar (n : Nat) : Char := Char.ofNat (48 + n)

/-- Decimal digits of `n`, most significant first; the fuel bounds the
number of divisions by 10. -/
def natDigitos : Nat → Nat → List Char
  | 0, _ => []
  | fuel + 1, n =>
    if n < 10 then [digitoChar n]
    else natDigitos fuel (n / 10) ++ [digitoChar (n % 10)]

/-- Decimal rendering of a natural number, as Python `str(int)`. -/
def natParaStr (n : Nat) : String := ⟨natDigitos (n + 1) n⟩

/-- Decimal rendering of an integer, as Python `str(int)`. -/
def intParaStr (i : Int) : String :=
  if i < 0 then "-" ++ natParaStr i.natAbs else natParaStr i.natAbs

/-- Lexicographic code-point order on strings, Python's `<`. -/
def menorLista : List Char → List Char → Bool
  | [], [] => false
  | [], _ :: _ => true
  | _ :: _, [] => false
  | a :: t, b :: u =>
    if a.toNat < b.toNat then true
    else if b.toNat < a.toNat then false
    else menorLista t u

/-! ### Dynamically typed cells and Python float values -/

/-- A dynamically typed pandas cell: missing (`NaN`), numeric, or string. -/
inductive Cell where
  | na : Cell
  | num : Frac → Cell
  | str : String → Cell
deriving DecidableEq

/-- A Python float value: either `NaN` or a (finite) rational.  Models the
values flowing through the accumulation (`float(...)` results and sums). -/
inductive PyNum where
  | nan : PyNum
  | val : Frac → PyNum
deriving DecidableEq

/-- Python float addition: `NaN` is absorbing. -/
def PyNum.soma : PyNum → PyNum → PyNum
  | .nan, _ => .nan
  | _, .nan => .nan
  | .val a, .val b => .val (a + b)

/-- The Python test `x == 0` on a float: false for `NaN`. -/
def PyNum.ehZero : PyNum → Bool
  | .nan => false
  | .val q => q == 0

/-- Python `total * valor` where `total` is a float and `valor` is a raw
cell taken from the rate table: multiplying by a string raises `TypeError`. -/
def PyNum.vezesCell : PyNum → Cell → Except String PyNum
  | _, .str _ => .error "TypeError: cannot multiply float by str"
  | .nan, _ => .ok .nan
  | .val _, .na => .ok .nan
  | .val a, .num b => .ok (.val (a.vezes b))

/-- Pandas `pd.notna` on a cell. -/
def naoNa : Cell → Bool
  | .na => false
  | _ => true

/-- Applies the parsed sign. -/
def aplicaSinal (neg : Bool) (q : Frac) : Frac :=
  if neg then q.neg else q

/-- Parse a decimal numeral string (optional minus sign, digits, optional
fractional part), the subset of Python's `float(...)` grammar the data
uses.  Scientific notation is not modelled. -/
def parseDecimal (s : String) : Option Frac :=
  let t := trimLista s.data
  let neg := decide (t.head? = some '-')
  let t2 := if neg then t.drop 1 else t
  match separaLista '.' t2 with
  | [ip] =>
    match digitosNat? ip with
    | some n => some (aplicaSinal neg ⟨(n : Int), 1⟩)
    | none => none
  | [ip, fp] =>
    if ip.isEmpty ∧ fp.isEmpty then none
    else
      match (if ip.isEmpty then some 0 else digitosNat? ip),
            (if fp.isEmpty then some 0 else digitosNat? fp) with
      | some n, some f =>
        some (aplicaSinal neg (Frac.normaliza ((n : Int) * 10 ^ fp.length + (f : Int))
          (10 ^ fp.length)))
      | _, _ => none
  | _ => none

/-- Pandas `pd.to_numeric(x, errors="coerce")`: numbers pass through, numeric
strings are parsed, everything else (including `NaN`) coerces to `NaN`. -/
def paraNumericoCoagido : Cell → PyNum
  | .num q => .val q
  | .na => .nan
  | .str s =>
    match parseDecimal s with
    | some q => .val q
    | none => .nan

/-- Pandas `pd.to_numeric(x, errors="coerce").fillna(0).astype(int)` applied to
one cell. -/
def paraIntCoagido (c : Cell) : Int :=
  match paraNumericoCoagido c with
  | .nan => 0
  | .val q => truncaFrac q

/-- Python `int(x)` on a cell: truncates numbers, parses integer literal
strings (with surrounding whitespace and an optional minus sign), raises
`ValueError` on `NaN` and non-numeric strings. -/
def intDeCell : Cell → Except String Int
  | .num q => .ok (truncaFrac q)
  | .na => .error "ValueError: cannot convert float NaN to integer"
  | .str s =>
    let t := trimLista s.data
    let neg := decide (t.head? = some '-')
    let t2 := if neg then t.drop 1 else t
    match digitosNat? t2 with
    | some n => .ok (if neg then -(n : Int) else (n : Int))
    | none => .error ("ValueError: invalid literal for int: " ++ s)

/-- Python `float(x)` on a cell: numbers pass through (`NaN` stays `NaN`),
numeric strings are parsed, non-numeric strings raise `ValueError`. -/
def floatDeCell : Cell → Except String PyNum
  | .num q => .ok (.val q)
  | .na => .ok .nan
  | .str s =>
    match parseDecimal s with
    | some q => .ok (.val q)
    | none => .error ("ValueError: could not convert string to float: " ++ s)

/-- Python `str(x)` on a cell.  `NaN` prints as `nan`; an integer-valued
number prints without a fractional part, like a Python `int`. -/
def pyStr : Cell → String
  | .str s => s
  | .na => "nan"
  | .num q =>
    if q.den = 1 then intParaStr q.num
    else intParaStr q.num ++ "/" ++ natParaStr q.den

/-- Removes the CPF punctuation, as `s.replace(".", "").replace("-", "")`
and the regex `[.-]` replacement both do. -/
def tiraPontuacao (s : String) : String :=
  ⟨s.data.filter (fun c => !(c == '.' || c == '-'))⟩

/-- Day number of a civil date (proleptic Gregorian), used to model
`datetime.date` subtraction.  Standard days-from-civil algorithm; all
intermediate quantities are non-negative for years ≥ 1. -/
def diasDesdeCivil (y m d : Nat) : Int :=
  let y2 : Int := if m ≤ 2 then (y : Int) - 1 else (y : Int)
  let era : Int := y2 / 400
  let yoe : Int := y2 - era * 400
  let mes : Int := if 2 < m then (m : Int) - 3 else (m : Int) + 9
  let doy : Int := (153 * mes + 2) / 5 + (d : Int) - 1
  let doe : Int := yoe * 365 + yoe / 4 - yoe / 100 + doy
  era * 146097 + doe - 719468

/-- Pandas `pd.to_datetime(x, errors="coerce").dt.date` restricted to the ISO
`YYYY-MM-DD` layout the registry uses; anything else coerces to `NaT`
(`none`).  The result is the date's epoch-day number. -/
def paraDataDias : Cell → Option Int
  | .str s =>
    match separaLista '-' s.data with
    | [ys, ms, ds] =>
      match digitosNat? ys, digitosNat? ms, digitosNat? ds with
      | some y, some m, some d =>
        if 1 ≤ y ∧ 1 ≤ m ∧ m ≤ 12 ∧ 1 ≤ d ∧ d ≤ 31 then some (diasDesdeCivil y m d)
        else none
      | _, _, _ => none
    | _ => none
  | _ => none

/-- Lookup in an insertion-ordered association list keyed by `Int`,
modelling a Python `dict` read. -/
def procura {α : Type} : List (Int × α) → Int → Option α
  | [], _ => none
  | (k, v) :: t, c => if k = c then some v else procura t c

/-- The Python test `k in d` on a dict. -/
def contem {α : Type} (m : List (Int × α)) (k : Int) : Bool :=
  (procura m k).isSome

/-- Python `d[k] = d.get(k, 0) + v` on an accumulator dict: updates in place,
appending a fresh key at the end, as Python's insertion order does. -/
def atualizaSoma (k : Int) (v : PyNum) : List (Int × PyNum) → List (Int × PyNum)
  | [] => [(k, PyNum.soma (.val 0) v)]
  | (k2, v2) :: t =>
    if k2 = k then (k2, PyNum.soma v2 v) :: t else (k2, v2) :: atualizaSoma k v t

/-- Python `d[k] = v` on a dict: overwrites in place or appends a fresh key. -/
def atualizaValor {α : Type} (k : Int) (v : α) : List (Int × α) → List (Int × α)
  | [] => [(k, v)]
  | (k2, v2) :: t =>
    if k2 = k then (k2, v) :: t else (k2, v2) :: atualizaValor k v t

/-- Lookup in an association list keyed by raw cells, modelling the
`mapa → caixas` dict built by `set_index("mapa")["caixas"].to_dict()`. -/
def procuraCell : List (Cell × Cell) → Cell → Option Cell
  | [], _ => none
  | (k, v) :: t, c => if k = c then some v else procuraCell t c

/-- Auxiliary recursion for `dedupPor`, carrying the keys already seen. -/
def dedupPorAux {α β : Type} [DecidableEq β] (chave : α → β) :
    List β → List α → List α
  | _, [] => []
  | vistos, x :: t =>
    if chave x ∈ vistos then dedupPorAux chave vistos t
    else x :: dedupPorAux chave (chave x :: vistos) t

/-- Pandas `drop_duplicates(subset=[...])`: keeps the first row for each key. -/
def dedupPor {α β : Type} [DecidableEq β] (chave : α → β) (l : List α) : List α :=
  dedupPorAux chave [] l

/-! ### The rate table (`metas`)

The `metas` dict carries, per worker class, the keys `meta_cx_dias_n1..n3`
and `meta_cx_valor_n1..n4`; each field below models one key, `none`
meaning the key is absent from the dict. -/

/-- One worker class's slice of the rate table. -/
structure MetasColab where
  dias_n1 : Option Cell
  dias_n2 : Option Cell
  dias_n3 : Option Cell
  valor_n1 : Option Cell
  valor_n2 : Option Cell
  valor_n3 : Option Cell
  valor_n4 : Option Cell
deriving DecidableEq

/-- The full rate table: `metas.get("motorista", {})` / `metas.get("ajudante", {})`. -/
structure Metas where
  motorista : MetasColab
  ajudante : MetasColab
deriving DecidableEq

/-- An empty rate-table slice (every key missing). -/
def metasVazias : MetasColab := ⟨none, none, none, none, none, none, none⟩

/-- Python `dias > limite` where `limite` is a raw cell from the rate
table: comparison with `NaN` is false, comparison with a string raises
`TypeError` (caught by the bare `except` of `_get_valor_por_caixa`). -/
def comparaMaior (dias : Int) : Cell → Except Unit Bool
  | .num q => .ok (Frac.menor q (Frac.ofInt dias))
  | .na => .ok false
  | .str _ => .error ()

/-- Source `caixas.py` lines 14–25: tenure-tier rate lookup, checking the `n3`,
`n2`, `n1` thresholds in that order with strict `>`; dict lookups default
to 1825/730/365 for thresholds and 0 for rates, and any comparison error
yields rate 0 via the bare `except`. -/
def _get_valor_por_caixa (dias_antiguidade : Int) (metas_colaborador : MetasColab) : Cell :=
  match comparaMaior dias_antiguidade ((metas_colaborador.dias_n3).getD (Cell.num 1825)) with
  | .error _ => Cell.num 0
  | .ok true => (metas_colaborador.valor_n4).getD (Cell.num 0)
  | .ok false =>
    match comparaMaior dias_antiguidade ((metas_colaborador.dias_n2).getD (Cell.num 730)) with
    | .error _ => Cell.num 0
    | .ok true => (metas_colaborador.valor_n3).getD (Cell.num 0)
    | .ok false =>
      match comparaMaior dias_antiguidade ((metas_colaborador.dias_n1).getD (Cell.num 365)) with
      | .error _ => Cell.num 0
      | .ok true => (metas_colaborador.valor_n2).getD (Cell.num 0)
      | .ok false => (metas_colaborador.valor_n1).getD (Cell.num 0)

/-! ### Input tables -/

/-- One registry (`cadastro`) row, with the fixed columns the aggregator
reads: driver code/date/name/CPF (`_M`) and helper code/date/name/CPF (`_J`). -/
structure LinhaCadastro where
  codigoM : Cell
  dataM : Cell
  nomeM : Cell
  cpfM : Cell
  codigoJ : Cell
  dataJ : Cell
  nomeJ : Cell
  cpfJ : Cell
deriving DecidableEq

/-- The name/CPF pair stored in the registry info maps. -/
structure InfoPessoa where
  nome : String
  cpf : String
deriving DecidableEq

/-- One box-count row: trip identifier (`mapa`) and box count (`caixas`). -/
structure LinhaCaixas where
  mapa : Cell
  caixas : Cell
deriving DecidableEq

/-- One trip row: an association list column name → cell.  Columns of the
frame that are absent from the list hold `NaN`. -/
abbrev LinhaViagem := List (String × Cell)

/-- The trip table: its column names plus its rows. -/
structure FrameViagens where
  cols : List String
  rows : List LinhaViagem
deriving DecidableEq

/-- Raw cell of a row at a column, `NaN` when not stored. -/
def procuraStr : List (String × Cell) → String → Option Cell
  | [], _ => none
  | (k, v) :: t, c => if k = c then some v else procuraStr t c

/-- Reading `viagem.get(col, dflt)` on a pandas row `Series`: the default applies
only when the column is absent from the frame; a column that exists but
has no stored value reads as `NaN`. -/
def serieGet (cols : List String) (v : LinhaViagem) (col : String) (dflt : Cell) : Cell :=
  if col ∈ cols then (procuraStr v col).getD Cell.na else dflt

/-! ### `processar_caixas_sincrono` (`caixas.py` lines 27–108) -/

/-- Source `caixas.py` lines 34–56, shared shape of the two registry passes:
filter rows with a non-`NaN` code, deduplicate by the raw code cell,
normalize the code (`to_numeric` + `fillna(0)` + `astype(int)`), skip
code 0, compute tenure days (`hoje` minus parsed date, 0 when
unparseable), and record name/CPF (`str(...).strip()`).
Returns (tenure map, info map). -/
def mapasCadastro (hoje : Int) (cod data nome cpf : LinhaCadastro → Cell) :
    Option (List LinhaCadastro) → List (Int × Int) × List (Int × InfoPessoa)
  | none => ([], [])
  | some rows =>
    let filtradas := dedupPor cod (rows.filter (fun r => naoNa (cod r)))
    filtradas.foldl
      (fun maps r =>
        let c := paraIntCoagido (cod r)
        if c = 0 then maps
        else
          let dias :=
            match paraDataDias (data r) with
            | some d => hoje - d
            | none => 0
          (atualizaValor c dias maps.1,
           atualizaValor c ⟨pyStrip (pyStr (nome r)), pyStrip (pyStr (cpf r))⟩ maps.2))
      ([], [])

/-- The driver registry pass (`_M` columns). -/
def mapasMotorista (hoje : Int) (df : Option (List LinhaCadastro)) :
    List (Int × Int) × List (Int × InfoPessoa) :=
  mapasCadastro hoje (·.codigoM) (·.dataM) (·.nomeM) (·.cpfM) df

/-- The helper registry pass (`_J` columns). -/
def mapasAjudante (hoje : Int) (df : Option (List LinhaCadastro)) :
    List (Int × Int) × List (Int × InfoPessoa) :=
  mapasCadastro hoje (·.codigoJ) (·.dataJ) (·.nomeJ) (·.cpfJ) df

/-- Source `caixas.py` lines 58–61: the `mapa → caixas` lookup, deduplicated by
the raw `mapa` cell, empty if the box table is `None` or empty. -/
def constroiMapaCaixas : Option (List LinhaCaixas) → List (Cell × Cell)
  | none => []
  | some rows =>
    if rows.isEmpty then []
    else (dedupPor (·.mapa) rows).map (fun r => (r.mapa, r.caixas))

/-- Source `caixas.py` lines 77–82, one helper column of one trip row:
`pd.to_numeric(viagem.get(col), errors="coerce")`, then the
`if cod and pd.notna(cod)` guard (false for `NaN` and for 0), then
accumulation only when the truncated code is in the helper info map. -/
def passoAjudanteCol (cols : List String) (ajudInfo : List (Int × InfoPessoa))
    (cx : PyNum) (viagem : LinhaViagem) (m : List (Int × PyNum)) (col : String) :
    List (Int × PyNum) :=
  match paraNumericoCoagido (serieGet cols viagem col Cell.na) with
  | .nan => m
  | .val q =>
    if q = 0 then m
    else
      let ci := truncaFrac q
      if contem ajudInfo ci then atualizaSoma ci cx m else m

/-- Source `caixas.py` lines 68–82, one trip row: resolve the box count through
the `mapa` lookup (`float` of the cell, default 0), skip the row when it
is 0, then `int(viagem.get("COD", 0))` — which raises on a non-numeric
driver code — accumulating the driver only when registered, and fold the
helper columns. -/
def passoViagem (cols colunas : List String) (motInfo ajudInfo : List (Int × InfoPessoa))
    (mapaCx : List (Cell × Cell))
    (acc : List (Int × PyNum) × List (Int × PyNum)) (viagem : LinhaViagem) :
    Except String (List (Int × PyNum) × List (Int × PyNum)) :=
  match floatDeCell
      ((procuraCell mapaCx
        (Cell.str (pyStr (serieGet cols viagem "MAPA" (Cell.str ""))))).getD (Cell.num 0)) with
  | .error e => .error e
  | .ok caixas_do_mapa =>
    if caixas_do_mapa.ehZero then .ok acc
    else
      match intDeCell (serieGet cols viagem "COD" (Cell.num 0)) with
      | .error e => .error e
      | .ok cod_motorista =>
        let accM :=
          if contem motInfo cod_motorista then atualizaSoma cod_motorista caixas_do_mapa acc.1
          else acc.1
        let accJ := colunas.foldl (passoAjudanteCol cols ajudInfo caixas_do_mapa viagem) acc.2
        .ok (accM, accJ)

/-- The accumulation loop over the trip rows. -/
def acumular (cols colunas : List String) (motInfo ajudInfo : List (Int × InfoPessoa))
    (mapaCx : List (Cell × Cell)) :
    List LinhaViagem → List (Int × PyNum) × List (Int × PyNum) →
    Except String (List (Int × PyNum) × List (Int × PyNum))
  | [], acc => .ok acc
  | v :: t, acc =>
    match passoViagem cols colunas motInfo ajudInfo mapaCx acc v with
    | .error e => .error e
    | .ok acc2 => acumular cols colunas motInfo ajudInfo mapaCx t acc2

/-- One aggregated worker-premium record as emitted by
`processar_caixas_sincrono` (`caixas.py` lines 90–94 and 102–106). -/
structure Resultado where
  cpf : String
  cod : Int
  nome : String
  total_caixas : PyNum
  valor_por_caixa : Cell
  total_premio : PyNum
  antiguidade_dias : Int
deriving DecidableEq

/-- Source `caixas.py` lines 84–106: emit a record per accumulated worker with a
nonzero total; identity from the info map with the `{"cpf": "N/A",
"nome": "COD {cod}"}` placeholder as `get` default, tenure from the
tenure map (default 0), rate via `_get_valor_por_caixa`, premium
`total * valor` (which raises on a string-valued rate). -/
def emitir (info : List (Int × InfoPessoa)) (antig : List (Int × Int))
    (metas : MetasColab) : List (Int × PyNum) → Except String (List Resultado)
  | [] => .ok []
  | (cod, total) :: t =>
    if total.ehZero then emitir info antig metas t
    else
      let i := (procura info cod).getD ⟨"COD " ++ intParaStr cod, "N/A"⟩
      let dias := (procura antig cod).getD 0
      let valor := _get_valor_por_caixa dias metas
      match PyNum.vezesCell total valor with
      | .error e => .error e
      | .ok premio =>
        match emitir info antig metas t with
        | .error e => .error e
        | .ok resto =>
          .ok ({ cpf := i.cpf, cod := cod, nome := i.nome, total_caixas := total,
                 valor_por_caixa := valor, total_premio := premio,
                 antiguidade_dias := dias } :: resto)

/-- Python `sorted(..., key=lambda x: x["nome"])` is stable and ascending; `a`
may precede `b` iff `b`'s name is not strictly smaller. -/
def nomeLe (a b : Resultado) : Bool :=
  !(menorLista b.nome.data a.nome.data)

/-- Stable insertion into a run already sorted by name. -/
def insereNome (r : Resultado) : List Resultado → List Resultado
  | [] => [r]
  | x :: t => if nomeLe r x then r :: x :: t else x :: insereNome r t

/-- Stable insertion sort by name, modelling Python's `sorted`. -/
def isortNome : List Resultado → List Resultado
  | [] => []
  | x :: t => insereNome x (isortNome t)

/-- Source `caixas.py` lines 27–108, `processar_caixas_sincrono`.  Note the
source reads `df_viagens.columns` on line 65 before the
`if df_viagens is not None` guard of line 67, so a `None` trip table
raises `AttributeError`; the embedding keeps that behaviour. -/
def processar_caixas_sincrono (hoje : Int) (df_viagens : Option FrameViagens)
    (df_cadastro : Option (List LinhaCadastro)) (df_caixas : Option (List LinhaCaixas))
    (metas : Metas) : Except String (List Resultado × List Resultado) :=
  let metas_motorista := metas.motorista
  let metas_ajudante := metas.ajudante
  let mapasM := mapasMotorista hoje df_cadastro
  let mapasJ := mapasAjudante hoje df_cadastro
  let mapaCx := constroiMapaCaixas df_caixas
  match df_viagens with
  | none => .error "AttributeError: NoneType object has no attribute columns"
  | some dfv =>
    let colunas_ajudantes := dfv.cols.filter (fun c => comecaCom "CODJ_" c)
    match acumular dfv.cols colunas_ajudantes mapasM.2 mapasJ.2 mapaCx dfv.rows ([], []) with
    | .error e => .error e
    | .ok acc =>
      match emitir mapasM.2 mapasM.1 metas_motorista acc.1 with
      | .error e => .error e
      | .ok resM =>
        match emitir mapasJ.2 mapasJ.1 metas_ajudante acc.2 with
        | .error e => .error e
        | .ok resJ => .ok (isortNome resM, isortNome resJ)

/-! ### `_merge_resultados` (`pagamento.py` lines 61–119)

Each input list is reindexed to the columns `cod`, `nome`, `cpf`,
`total_premio`; a missing key reads as `NaN`, hence the `Option` fields.
The `cod` column is normalized by `to_numeric(coerce).fillna(0).astype(int)`
(`chaveCod`).  The pandas outer merge pairs every row of one side with
every matching row of the other and keeps the unmatched rows of both;
the embedding produces the same rows (the merge key order may differ,
which no property below depends on).  After the merge the premium
columns are `fillna(0)`-ed, `total_a_pagar` is their sum, the name and
CPF are consolidated preferring the KPI side (`pd.notna`), then line 114
drops every column whose NAME CONTAINS the substring `_kpi` or `_cx` —
Python's `in` on strings — which removes not only the suffixed
`nome_kpi`/`cpf_kpi`/`nome_cx`/`cpf_cx` intermediates but also the
`premio_kpi` column itself, because `"_kpi"` is a substring of
`"premio_kpi"` (`"_cx"` is not a substring of `"premio_caixas"`, which
survives).  The remaining `NaN`s become `""`.  The output rows therefore
carry `cod`, `premio_caixas`, `total_a_pagar`, `nome`, `cpf` and no
`premio_kpi` field; the column flow, including the drop, is reproduced
by `colunasSaidaMerge` below.  One residue is not modelled in the row
values: when an input list is empty the source's `else` branch skips the
rename of its `total_premio` column, so that side leaves an all-`NaN`
(serialized `""`) `total_premio` column in the output; it carries no
data and the premium values are unaffected because the missing renamed
column is recreated as 0 after the merge. -/

/-- One input record of the merger: the four reindexed columns. -/
structure RegistroEntrada where
  cod : Cell
  nome : Option String
  cpf : Option String
  total_premio : Option Frac
deriving DecidableEq

/-- The merge key: `pd.to_numeric(df["cod"], errors="coerce").fillna(0).astype(int)`. -/
def chaveCod (r : RegistroEntrada) : Int :=
  paraIntCoagido r.cod

/-- One merged row, with exactly the value-carrying columns the merger
leaves after the line-114 drop: `cod`, `premio_caixas`, `total_a_pagar`,
`nome`, `cpf`.  There is NO `premio_kpi` field: that column is computed
(lines 101 and 104) and summed into `total_a_pagar` (line 106), but then
dropped because `"_kpi"` is a substring of `"premio_kpi"`. -/
structure LinhaMerged where
  cod : Int
  premio_caixas : Frac
  total_a_pagar : Frac
  nome : String
  cpf : String
deriving DecidableEq

/-- The identity consolidation of `pagamento.py` lines 110–111 combined
with the final `fillna("")`: the KPI-side value when non-null, else the
box-side value, else `""`. -/
def consolida (a b : Option String) : String :=
  match a with
  | some s => s
  | none => b.getD ""

/-- Builds one merged row from the (possibly absent) KPI-side and
box-side records sharing the merge key `c`.  The KPI premium `pk` is
filled with 0 when absent and enters the `total_a_pagar` sum, but is not
a field of the row: its column is dropped on line 114. -/
def mkLinha (l r : Option RegistroEntrada) (c : Int) : LinhaMerged :=
  let pk := (l.bind RegistroEntrada.total_premio).getD 0
  let pc := (r.bind RegistroEntrada.total_premio).getD 0
  { cod := c, premio_caixas := pc, total_a_pagar := pk + pc,
    nome := consolida (l.bind RegistroEntrada.nome) (r.bind RegistroEntrada.nome),
    cpf := consolida (l.bind RegistroEntrada.cpf) (r.bind RegistroEntrada.cpf) }

/-- The outer merge on `cod` of one worker class followed by the
post-processing of `pagamento.py` lines 100–117. -/
def mergeLado (kpi cx : List RegistroEntrada) : List LinhaMerged :=
  (kpi.map (fun l =>
    if (cx.filter (fun r => chaveCod r == chaveCod l)).isEmpty then
      [mkLinha (some l) none (chaveCod l)]
    else (cx.filter (fun r => chaveCod r == chaveCod l)).map
      (fun r => mkLinha (some l) (some r) (chaveCod l)))).flatten
  ++ (cx.filter (fun r => kpi.all (fun l => !(chaveCod l == chaveCod r)))).map
      (fun r => mkLinha none (some r) (chaveCod r))

/-- Source `pagamento.py` lines 61–119, `_merge_resultados`: the driver and the
helper sides are merged independently. -/
def _merge_resultados (m_kpi a_kpi m_cx a_cx : List RegistroEntrada) :
    List LinhaMerged × List LinhaMerged :=
  (mergeLado m_kpi m_cx, mergeLado a_kpi a_cx)

/-- Source `pagamento.py` lines 66–69: the reindexed KPI-side frame has the
columns `cod, nome, cpf, total_premio`, with `total_premio` renamed to
`premio_kpi` only in the non-empty branch (the empty-list `else` branch
builds the frame without the rename). -/
def colunasLadoKpi (kpi : List RegistroEntrada) : List String :=
  if kpi.isEmpty then ["cod", "nome", "cpf", "total_premio"]
  else ["cod", "nome", "cpf", "premio_kpi"]

/-- Source `pagamento.py` lines 76–84: same for the box side, whose rename
target is `premio_caixas`. -/
def colunasLadoCx (cx : List RegistroEntrada) : List String :=
  if cx.isEmpty then ["cod", "nome", "cpf", "total_premio"]
  else ["cod", "nome", "cpf", "premio_caixas"]

/-- Source `pagamento.py` lines 97–98: the outer merge on `cod` keeps the
key once and appends both sides' other columns, suffixing with
`_kpi`/`_cx` exactly the names present in both frames. -/
def colunasAposMerge (kpi cx : List RegistroEntrada) : List String :=
  let ck := colunasLadoKpi kpi
  let cc := colunasLadoCx cx
  ["cod"]
  ++ (ck.filter (fun c => c != "cod")).map (fun c => if c ∈ cc then c ++ "_kpi" else c)
  ++ (cc.filter (fun c => c != "cod")).map (fun c => if c ∈ ck then c ++ "_cx" else c)

/-- Source `pagamento.py` lines 100–117, the column flow of the
post-processing: lines 101–102 add the premium columns when missing,
lines 106 and 110–111 add `total_a_pagar`, `nome` and `cpf`, and line 114
drops every column whose name contains the substring `_kpi` or `_cx` —
which removes `premio_kpi` itself, since `"_kpi"` is a substring of
`"premio_kpi"` (while `"_cx"` is not a substring of `"premio_caixas"`). -/
def colunasSaidaMerge (kpi cx : List RegistroEntrada) : List String :=
  let pos := colunasAposMerge kpi cx
  let pos2 := pos
    ++ (if "premio_kpi" ∈ pos then [] else ["premio_kpi"])
    ++ (if "premio_caixas" ∈ pos then [] else ["premio_caixas"])
    ++ ["total_a_pagar", "nome", "cpf"]
  pos2.filter (fun c => !(contemSub "_kpi" c || contemSub "_cx" c))

/-! ### The three route handlers

The data fetches, `_get_metas_sincrono`, the authenticated user and the
external `processar_incentivos_sincrono` are collaborators outside this
repository; each endpoint model takes their results as arguments.  A
fetch result is a pair (table-or-none, error-or-none); Python's
`err1 or err2 or ...` on such error strings is `Option.orElse`. -/

/-- The authenticated caller: a role and a username (a CPF for non-admins). -/
structure Usuario where
  role : String
  username : String
deriving DecidableEq

/-- The JSON body of the box-only report. -/
structure SaidaCaixas where
  motoristas : List Resultado
  ajudantes : List Resultado
  error : Option String
deriving DecidableEq

/-- Source `caixas.py` lines 111–144, `ler_relatorio_caixas`: combine the fetch
errors, skip the aggregation entirely when one is present, then filter
both lists by the caller's punctuation-stripped CPF unless admin.  The
route has no exception handler, so an aggregation error propagates. -/
def ler_relatorio_caixas (hoje : Int) (current_user : Usuario) (metas : Metas)
    (fetchViagens : Option FrameViagens × Option String)
    (fetchCadastro : Option (List LinhaCadastro) × Option String)
    (fetchCaixas : Option (List LinhaCaixas) × Option String) :
    Except String SaidaCaixas :=
  let error := fetchViagens.2 <|> fetchCadastro.2 <|> fetchCaixas.2
  match (match error with
         | some _ => Except.ok ([], [])
         | none =>
           processar_caixas_sincrono hoje fetchViagens.1 fetchCadastro.1 fetchCaixas.1 metas) with
  | .error e => .error e
  | .ok res =>
    if current_user.role != "admin" then
      let user_cpf := tiraPontuacao current_user.username
      .ok ⟨res.1.filter (fun m => tiraPontuacao m.cpf == user_cpf),
           res.2.filter (fun a => tiraPontuacao a.cpf == user_cpf), error⟩
    else .ok ⟨res.1, res.2, error⟩

/-- The record returned by `_get_dados_completos` (`pagamento.py` lines
22–59).  The indicator table is consumed only by the external incentive
collaborator, so only its fetch error is modelled. -/
structure DadosCompletos where
  metas : Metas
  df_viagens_bruto : Option FrameViagens
  df_viagens_dedup : Option FrameViagens
  df_cadastro : Option (List LinhaCadastro)
  df_caixas : Option (List LinhaCaixas)
  error_message : Option String

/-- Source `pagamento.py` lines 22–59: builds the deduplicated trip frame (by
the raw `MAPA` cell when the column exists, by whole rows otherwise) and
combines the four fetch errors.  The date-window arithmetic of lines
24–34 only chooses the range the indicator fetch is issued with, which is
already reflected in the fetch results passed in. -/
def _get_dados_completos (metas : Metas)
    (fetchViagens : Option FrameViagens × Option String)
    (fetchCadastro : Option (List LinhaCadastro) × Option String)
    (errIndicadores : Option String)
    (fetchCaixas : Option (List LinhaCaixas) × Option String) : DadosCompletos :=
  let df_viagens := fetchViagens.1
  let dedup : Option FrameViagens :=
    match df_viagens with
    | none => none
    | some f =>
      if "MAPA" ∈ f.cols then
        some ⟨f.cols, dedupPor (fun r => (procuraStr r "MAPA").getD Cell.na) f.rows⟩
      else some ⟨f.cols, dedupPor (fun r => r) f.rows⟩
  { metas := metas, df_viagens_bruto := df_viagens, df_viagens_dedup := dedup,
    df_cadastro := fetchCadastro.1, df_caixas := fetchCaixas.1,
    error_message := fetchViagens.2 <|> fetchCadastro.2 <|> errIndicadores <|> fetchCaixas.2 }

/-- The JSON body of the combined payment report. -/
structure SaidaPagamento where
  motoristas : List LinhaMerged
  ajudantes : List LinhaMerged
  error : Option String
deriving DecidableEq

/-- Converts one aggregator record into the merger's reindexed shape:
the dict always carries `cod`, `nome`, `cpf` and a numeric-or-`NaN`
`total_premio`. -/
def registroDeResultado (r : Resultado) : RegistroEntrada :=
  { cod := Cell.num (Frac.ofInt r.cod), nome := some r.nome, cpf := some r.cpf,
    total_premio := match r.total_premio with | .val q => some q | .nan => none }

/-- Source `pagamento.py` lines 121–170, `ler_relatorio_pagamento`: return empty
lists plus the fetch error when one is present; otherwise aggregate the
boxes on the deduplicated trips, merge with the externally computed KPI
records `m_kpi`/`a_kpi`, and CPF-filter for non-admins.  Any exception
inside is caught and reported as the generic internal-error message. -/
def ler_relatorio_pagamento (hoje : Int) (current_user : Usuario)
    (dados : DadosCompletos) (m_kpi a_kpi : List RegistroEntrada) : SaidaPagamento :=
  if dados.error_message.isSome then ⟨[], [], dados.error_message⟩
  else
    match processar_caixas_sincrono hoje dados.df_viagens_dedup dados.df_cadastro
        dados.df_caixas dados.metas with
    | .error _ =>
      ⟨[], [], some "Erro interno no servidor. Consulte os logs do Backend para o traceback."⟩
    | .ok resCx =>
      let res := _merge_resultados m_kpi a_kpi (resCx.1.map registroDeResultado)
        (resCx.2.map registroDeResultado)
      if current_user.role != "admin" then
        let cpf_user := tiraPontuacao current_user.username
        ⟨res.1.filter (fun r => tiraPontuacao r.cpf == cpf_user),
         res.2.filter (fun r => tiraPontuacao r.cpf == cpf_user), none⟩
      else ⟨res.1, res.2, none⟩

/-- Source `pagamento.py` lines 172–214, `exportar_relatorio_pagamento`: the
export route neither consults `dados.error_message` nor applies any
caller CPF filter (it takes no authenticated user at all); it aggregates,
merges and serializes, turning any internal exception into an HTTP 500
(`Except.error ()`).  The Excel serialization itself is out of scope; the
result is the pair of sheets' row lists. -/
def exportar_relatorio_pagamento (hoje : Int) (dados : DadosCompletos)
    (m_kpi a_kpi : List RegistroEntrada) :
    Except Unit (List LinhaMerged × List LinhaMerged) :=
  match processar_caixas_sincrono hoje dados.df_viagens_dedup dados.df_cadastro
      dados.df_caixas dados.metas with
  | .error _ => .error ()
  | .ok resCx =>
    .ok (_merge_resultados m_kpi a_kpi (resCx.1.map registroDeResultado)
      (resCx.2.map registroDeResultado))

/-! ### Specification-side definitions

`tierSpec`/`valorDaFaixa` restate the spec's tenure-tier rule in its own
words ("checked from highest to lowest threshold, first match wins,
default rate 0 if rate table missing a key"), to be compared with the
source's `_get_valor_por_caixa`. -/

/-- The tier selected for a tenure, per the spec's rule: thresholds
checked from the highest down, strict comparisons, first match wins.
Being a function, it assigns exactly one tier to every tenure value. -/
def tierSpec (dias : Int) (t1 t2 t3 : Frac) : Nat :=
  if Frac.menor t3 (Frac.ofInt dias) then 4
  else if Frac.menor t2 (Frac.ofInt dias) then 3
  else if Frac.menor t1 (Frac.ofInt dias) then 2
  else 1

/-- The rate of a tier, defaulting to 0 when the rate table misses the key. -/
def valorDaFaixa (m : MetasColab) : Nat → Cell
  | 4 => (m.valor_n4).getD (Cell.num 0)
  | 3 => (m.valor_n3).getD (Cell.num 0)
  | 2 => (m.valor_n2).getD (Cell.num 0)
  | _ => (m.valor_n1).getD (Cell.num 0)

/-- Whether a trip row's identifier resolves, through the deduplicated
box-count lookup, to a box count of 0 — exactly the `caixas_do_mapa == 0`
test of `caixas.py` line 71 (false when `float(...)` would raise). -/
def resolveZero (cols : List String) (mapaCx : List (Cell × Cell)) (v : LinhaViagem) : Bool :=
  match floatDeCell
      ((procuraCell mapaCx (Cell.str (pyStr (serieGet cols v "MAPA" (Cell.str ""))))).getD
        (Cell.num 0)) with
  | .ok n => n.ehZero
  | .error _ => false

/-! ### Concrete instances used by the witnesses and counterexamples -/

/-- Projection of an export result onto its driver sheet (empty on HTTP 500). -/
def motoristasDe : Except Unit (List LinhaMerged × List LinhaMerged) → List LinhaMerged
  | .ok p => p.1
  | .error _ => []

/-- A registry row for driver 7 ("ANA"), registration date missing. -/
def cadAna : LinhaCadastro :=
  ⟨Cell.num 7, Cell.na, Cell.str "ANA", Cell.str "111.111.111-11",
   Cell.na, Cell.na, Cell.na, Cell.na⟩

/-- A registry row for driver 8 ("BIA"). -/
def cadBia : LinhaCadastro :=
  ⟨Cell.num 8, Cell.na, Cell.str "BIA", Cell.str "222.222.222-22",
   Cell.na, Cell.na, Cell.na, Cell.na⟩

/-- Two trips, `M1` by driver 7 and `M2` by driver 8. -/
def frameEx : FrameViagens :=
  ⟨["MAPA", "COD"],
   [[("MAPA", Cell.str "M1"), ("COD", Cell.num 7)],
    [("MAPA", Cell.str "M2"), ("COD", Cell.num 8)]]⟩

/-- Box counts: 10 boxes on `M1`, 20 on `M2`. -/
def cxEx : List LinhaCaixas := [⟨Cell.str "M1", Cell.num 10⟩, ⟨Cell.str "M2", Cell.num 20⟩]

/-- An empty rate table for both classes. -/
def metasEx : Metas := ⟨metasVazias, metasVazias⟩

/-- A trip whose driver-code cell holds the non-numeric string `ABC`. -/
def frameRuim : FrameViagens :=
  ⟨["MAPA", "COD"], [[("MAPA", Cell.str "M1"), ("COD", Cell.str "ABC")]]⟩

/-- A box-count table giving trip `M1` 10 boxes. -/
def cxRuim : List LinhaCaixas := [⟨Cell.str "M1", Cell.num 10⟩]

/-- Fetched data where the trip fetch reported an error string. -/
def dadosErr : DadosCompletos :=
  _get_dados_completos metasEx (some frameEx, some "falha na consulta")
    (some [cadAna, cadBia], none) none (some cxEx, none)

/-- Fetched data with no fetch error and two registered drivers. -/
def dadosOk : DadosCompletos :=
  _get_dados_completos metasEx (some frameEx, none)
    (some [cadAna, cadBia], none) none (some cxEx, none)

/-- A KPI record for worker 7 with premium 200. -/
def regK7 : RegistroEntrada := ⟨Cell.num 7, some "JOAO", some "123.456.789-00", some 200⟩

/-- A box record for worker 9 with premium 50. -/
def regC9 : RegistroEntrada := ⟨Cell.num 9, some "RITA", some "999", some 50⟩

/-- The aggregator output on the concrete example inputs, used by the
registry-lookup witness. -/
def resEx : List Resultado × List Resultado :=
  ((processar_caixas_sincrono 1000 (some frameEx) (some [cadAna, cadBia]) (some cxEx)
      metasEx).toOption).getD ([], [])

/-! ## Theorems -/

/-- C2: `processar_caixas_sincrono` does NOT return a result on a missing
trip table — line 65 of `caixas.py` reads `df_viagens.columns` before the
`None` guard of line 67, so every call with `df_viagens = None` raises
`AttributeError`, whatever the registry, box table and rate table are. -/
theorem processar_viagens_none_erro (hoje : Int) (cad : Option (List LinhaCadastro))
    (cx : Option (List LinhaCaixas)) (metas : Metas) :
    processar_caixas_sincrono hoje none cad cx metas
      = Except.error "AttributeError: NoneType object has no attribute columns" := rfl

/-- C5: a non-numeric driver code does NOT merely contribute nothing — on
a trip with a nonzero box count and the driver-code cell `"ABC"`,
`int(viagem.get("COD", 0))` raises `ValueError` and the whole aggregation
fails, contradicting the claim's "causes no error". -/
theorem cod_motorista_nao_numerico_erro :
    processar_caixas_sincrono 0 (some frameRuim) none (some cxRuim) metasEx
      = Except.error "ValueError: invalid literal for int: ABC" := rfl

/-- C3: the spreadsheet-export route attempts the aggregation even when a
data fetch reported an error: with the trip fetch failing with
`"falha na consulta"`, `exportar_relatorio_pagamento` still returns a
workbook with a non-empty driver sheet instead of an empty result
carrying the message. -/
theorem exportar_ignora_erro_fetch :
    dadosErr.error_message = some "falha na consulta" ∧
      motoristasDe (exportar_relatorio_pagamento 1000 dadosErr [] []) ≠ [] := by
  decide

/-- C4: the spreadsheet-export route applies no CPF filtering at all (it
never consults a caller identity): on error-free data its driver sheet
contains rows with two different punctuation-stripped CPFs, so for every
non-admin caller at least one returned row fails the claimed CPF match. -/
theorem exportar_sem_filtro_cpf :
    ∃ r1 ∈ motoristasDe (exportar_relatorio_pagamento 1000 dadosOk [] []),
      ∃ r2 ∈ motoristasDe (exportar_relatorio_pagamento 1000 dadosOk [] []),
        tiraPontuacao r1.cpf ≠ tiraPontuacao r2.cpf := by
  decide

/-- C6: for every tenure and every rate table whose threshold entries are
numeric (in particular absent, where the dict defaults 365/730/1825
apply), the source lookup `_get_valor_por_caixa` returns exactly the rate
of the single tier selected by the spec's highest-threshold-first,
strict-comparison rule, with a missing rate key yielding 0; with the
default thresholds the boundary tenures 365, 730 and 1825 fall into the
lower tier. -/
theorem valor_por_caixa_faixas (dias : Int) (m : MetasColab) (t1 t2 t3 : Frac)
    (h1 : (m.dias_n1).getD (Cell.num 365) = Cell.num t1)
    (h2 : (m.dias_n2).getD (Cell.num 730) = Cell.num t2)
    (h3 : (m.dias_n3).getD (Cell.num 1825) = Cell.num t3) :
    _get_valor_por_caixa dias m = valorDaFaixa m (tierSpec dias t1 t2 t3)
    ∧ (t1 = 365 → t2 = 730 → t3 = 1825 →
        ((dias = 365 → _get_valor_por_caixa dias m = (m.valor_n1).getD (Cell.num 0))
        ∧ (dias = 730 → _get_valor_por_caixa dias m = (m.valor_n2).getD (Cell.num 0))
        ∧ (dias = 1825 → _get_valor_por_caixa dias m = (m.valor_n3).getD (Cell.num 0))))
    ∧ (Frac.menor t1 (Frac.ofInt dias) = false → Frac.menor t2 (Frac.ofInt dias) = false →
        Frac.menor t3 (Frac.ofInt dias) = false → m.valor_n1 = none →
        _get_valor_por_caixa dias m = Cell.num 0) := by
  have hmain : _get_valor_por_caixa dias m = valorDaFaixa m (tierSpec dias t1 t2 t3) := by
    unfold _get_valor_por_caixa tierSpec
    rw [h1, h2, h3]
    cases hd3 : Frac.menor t3 (Frac.ofInt dias)
    · cases hd2 : Frac.menor t2 (Frac.ofInt dias)
      · cases hd1 : Frac.menor t1 (Frac.ofInt dias)
        · simp [comparaMaior, hd3, hd2, hd1, valorDaFaixa]
        · simp [comparaMaior, hd3, hd2, hd1, valorDaFaixa]
      · simp [comparaMaior, hd3, hd2, valorDaFaixa]
    · simp [comparaMaior, hd3, valorDaFaixa]
  refine ⟨hmain, ?_, ?_⟩
  · rintro rfl rfl rfl
    refine ⟨?_, ?_, ?_⟩
    · rintro rfl
      rw [hmain]
      rfl
    · rintro rfl
      rw [hmain]
      rfl
    · rintro rfl
      rw [hmain]
      rfl
  · intro hle1 hle2 hle3 hnone
    rw [hmain]
    simp [tierSpec, hle1, hle2, hle3, valorDaFaixa, hnone]

/-- Witness for C6 at tenure 5 and the empty rate table, whose dict
defaults make the thresholds 365/730/1825. -/
theorem valor_por_caixa_faixas_instancia :
    _get_valor_por_caixa 5 metasVazias = valorDaFaixa metasVazias (tierSpec 5 365 730 1825) :=
  (valor_por_caixa_faixas 5 metasVazias 365 730 1825 rfl rfl rfl).1

/-- A KPI-side record whose key is unmatched on the box side contributes
the row pairing it with nothing. -/
theorem mergeLado_so_kpi (kpi cx : List RegistroEntrada) (l : RegistroEntrada)
    (hl : l ∈ kpi) (h : ∀ r ∈ cx, chaveCod r ≠ chaveCod l) :
    mkLinha (some l) none (chaveCod l) ∈ mergeLado kpi cx := by
  have hcas : cx.filter (fun r => chaveCod r == chaveCod l) = [] := by
    rw [List.filter_eq_nil_iff]
    intro r hr
    simp [h r hr]
  unfold mergeLado
  apply List.mem_append_left
  rw [List.mem_flatten]
  refine ⟨[mkLinha (some l) none (chaveCod l)], ?_, by simp⟩
  rw [List.mem_map]
  exact ⟨l, hl, by rw [hcas]; simp⟩

/-- A box-side record whose key is unmatched on the KPI side contributes
the row pairing it with nothing. -/
theorem mergeLado_so_cx (kpi cx : List RegistroEntrada) (r : RegistroEntrada)
    (hr : r ∈ cx) (h : ∀ l ∈ kpi, chaveCod l ≠ chaveCod r) :
    mkLinha none (some r) (chaveCod r) ∈ mergeLado kpi cx := by
  unfold mergeLado
  apply List.mem_append_right
  rw [List.mem_map]
  refine ⟨r, ?_, rfl⟩
  rw [List.mem_filter]
  refine ⟨hr, ?_⟩
  rw [List.all_eq_true]
  intro l hl
  simp [h l hl]

/-- C1 counterexample: in the claim's own scenario (worker 7 present only
in the KPI input with premium 200) the merged driver frame has NO
`premio_kpi` column — line 114's substring test `"_kpi" in col` matches
`"premio_kpi"` and drops it — so no merged row is a record with a
`premio_kpi` field and no row `{cod: 7, premio_kpi: 200, ...}` can occur
in the output, while `cod`, `premio_caixas` and `total_a_pagar` do
remain. -/
theorem merge_sem_coluna_premio_kpi :
    "premio_kpi" ∉ colunasSaidaMerge [regK7] []
    ∧ "cod" ∈ colunasSaidaMerge [regK7] []
    ∧ "premio_caixas" ∈ colunasSaidaMerge [regK7] []
    ∧ "total_a_pagar" ∈ colunasSaidaMerge [regK7] []
    ∧ "nome" ∈ colunasSaidaMerge [regK7] []
    ∧ "cpf" ∈ colunasSaidaMerge [regK7] [] := by
  decide

/-- C1 (amended): the merged rows carry the fields `cod`, `nome`, `cpf`,
`premio_caixas` and `total_a_pagar` — the `premio_kpi` column is dropped
by line 114's substring test before output — and a driver present in the
KPI results with premium 200 under code 7 and absent from the box
results yields, in the merged driver output, a row with `cod = 7`,
`premio_caixas = 0` and `total_a_pagar = 200`. -/
theorem exemplo_merge_cod7 (m_kpi a_kpi m_cx a_cx : List RegistroEntrada)
    (h1 : ∃ r ∈ m_kpi, chaveCod r = 7 ∧ r.total_premio = some 200)
    (h2 : ∀ r ∈ m_cx, chaveCod r ≠ 7) :
    ∃ row ∈ (_merge_resultados m_kpi a_kpi m_cx a_cx).1,
      row.cod = 7 ∧ row.premio_caixas = 0 ∧ row.total_a_pagar = 200 := by
  obtain ⟨l, hl, hk, hp⟩ := h1
  refine ⟨mkLinha (some l) none (chaveCod l), ?_, ?_⟩
  · exact mergeLado_so_kpi m_kpi m_cx l hl (fun r hr => hk ▸ h2 r hr)
  · have htt : (mkLinha (some l) none (chaveCod l)).total_a_pagar = 200 := by
      show (l.total_premio).getD 0 + (0 : Frac) = 200
      rw [hp]
      rfl
    exact ⟨hk, rfl, htt⟩

/-- Witness for C1 with the KPI list `[regK7]` and all other lists empty. -/
theorem exemplo_merge_cod7_instancia :
    ∃ row ∈ (_merge_resultados [regK7] [] [] []).1,
      row.cod = 7 ∧ row.premio_caixas = 0 ∧ row.total_a_pagar = 200 :=
  exemplo_merge_cod7 [regK7] [] [] [] ⟨regK7, by simp, by decide, rfl⟩ (by simp)

/-- C8 counterexample: for a worker present only on the box side the
merged output cannot contain a row with the field `premio_kpi` filled as
0, because line 114's substring test drops the `premio_kpi` column
entirely from the output frame (while `premio_caixas` survives). -/
theorem merge_caixas_sem_premio_kpi :
    "premio_kpi" ∉ colunasSaidaMerge [] [regC9]
    ∧ "premio_caixas" ∈ colunasSaidaMerge [] [regC9]
    ∧ "total_a_pagar" ∈ colunasSaidaMerge [] [regC9] := by
  decide

/-- C8 (amended): the merger is an outer join on the normalized worker
code — for each side (driver and helper) a code present in exactly one
input still yields a merged row for that code.  A KPI-only code's row has
`premio_caixas = 0` (that column survives the drop); a box-only code's
row has its KPI premium filled as 0 inside the `total_a_pagar` sum
(`total_a_pagar = 0 + premio_caixas`), the `premio_kpi` column itself
being dropped from the output by line 114. -/
theorem merge_junta_externa (m_kpi a_kpi m_cx a_cx : List RegistroEntrada) (c : Int) :
    ((∃ r ∈ m_kpi, chaveCod r = c) → (∀ r ∈ m_cx, chaveCod r ≠ c) →
      ∃ row ∈ (_merge_resultados m_kpi a_kpi m_cx a_cx).1,
        row.cod = c ∧ row.premio_caixas = 0)
    ∧ ((∃ r ∈ m_cx, chaveCod r = c) → (∀ r ∈ m_kpi, chaveCod r ≠ c) →
      ∃ row ∈ (_merge_resultados m_kpi a_kpi m_cx a_cx).1,
        row.cod = c ∧ row.total_a_pagar = (0 : Frac) + row.premio_caixas)
    ∧ ((∃ r ∈ a_kpi, chaveCod r = c) → (∀ r ∈ a_cx, chaveCod r ≠ c) →
      ∃ row ∈ (_merge_resultados m_kpi a_kpi m_cx a_cx).2,
        row.cod = c ∧ row.premio_caixas = 0)
    ∧ ((∃ r ∈ a_cx, chaveCod r = c) → (∀ r ∈ a_kpi, chaveCod r ≠ c) →
      ∃ row ∈ (_merge_resultados m_kpi a_kpi m_cx a_cx).2,
        row.cod = c ∧ row.total_a_pagar = (0 : Frac) + row.premio_caixas) := by
  refine ⟨?_, ?_, ?_, ?_⟩
  · rintro ⟨l, hl, rfl⟩ h
    exact ⟨mkLinha (some l) none (chaveCod l),
      mergeLado_so_kpi m_kpi m_cx l hl (fun r hr => h r hr), rfl, rfl⟩
  · rintro ⟨r, hr, rfl⟩ h
    exact ⟨mkLinha none (some r) (chaveCod r),
      mergeLado_so_cx m_kpi m_cx r hr (fun l hl => h l hl), rfl, rfl⟩
  · rintro ⟨l, hl, rfl⟩ h
    exact ⟨mkLinha (some l) none (chaveCod l),
      mergeLado_so_kpi a_kpi a_cx l hl (fun r hr => h r hr), rfl, rfl⟩
  · rintro ⟨r, hr, rfl⟩ h
    exact ⟨mkLinha none (some r) (chaveCod r),
      mergeLado_so_cx a_kpi a_cx r hr (fun l hl => h l hl), rfl, rfl⟩

/-- Witness for C8: worker 7 KPI-only on the driver side and worker 9
box-only on the driver side. -/
theorem merge_junta_externa_instancia :
    (∃ row ∈ (_merge_resultados [regK7] [] [] []).1, row.cod = 7 ∧ row.premio_caixas = 0)
    ∧ (∃ row ∈ (_merge_resultados [] [] [regC9] []).1,
        row.cod = 9 ∧ row.total_a_pagar = (0 : Frac) + row.premio_caixas) :=
  ⟨(merge_junta_externa [regK7] [] [] [] 7).1 ⟨regK7, by simp, by decide⟩ (by simp),
   (merge_junta_externa [] [] [regC9] [] 9).2.1 ⟨regC9, by simp, by decide⟩ (by simp)⟩

/-- C9: every merged row originates from a KPI-side record and/or a
matching box-side record, and its consolidated name (and CPF) is the
KPI-side value when that is present and non-null, otherwise the box-side
value (an absent or null box-side value serializing as `""`). -/
theorem merge_prefere_kpi (kpi cx : List RegistroEntrada) (row : LinhaMerged)
    (h : row ∈ mergeLado kpi cx) :
    ∃ ol oc : Option RegistroEntrada,
      (ol ≠ none ∨ oc ≠ none)
      ∧ (∀ l, ol = some l → l ∈ kpi) ∧ (∀ r, oc = some r → r ∈ cx)
      ∧ row.nome = consolida (ol.bind RegistroEntrada.nome) (oc.bind RegistroEntrada.nome)
      ∧ row.cpf = consolida (ol.bind RegistroEntrada.cpf) (oc.bind RegistroEntrada.cpf) := by
  unfold mergeLado at h
  rw [List.mem_append] at h
  rcases h with h | h
  · rw [List.mem_flatten] at h
    obtain ⟨s, hs, hrow⟩ := h
    rw [List.mem_map] at hs
    obtain ⟨l, hl, rfl⟩ := hs
    by_cases hcas : (cx.filter (fun r => chaveCod r == chaveCod l)).isEmpty
    · rw [if_pos hcas, List.mem_singleton] at hrow
      subst hrow
      refine ⟨some l, none, Or.inl (by simp), ?_, ?_, rfl, rfl⟩
      · intro x hx
        exact (Option.some.inj hx) ▸ hl
      · intro x hx
        exact absurd hx (by simp)
    · rw [if_neg hcas, List.mem_map] at hrow
      obtain ⟨r, hrmem, hrow⟩ := hrow
      subst hrow
      have hrcx : r ∈ cx := (List.mem_filter.mp hrmem).1
      refine ⟨some l, some r, Or.inl (by simp), ?_, ?_, rfl, rfl⟩
      · intro x hx
        exact (Option.some.inj hx) ▸ hl
      · intro x hx
        exact (Option.some.inj hx) ▸ hrcx
  · rw [List.mem_map] at h
    obtain ⟨r, hrmem, hrow⟩ := h
    subst hrow
    have hrcx : r ∈ cx := (List.mem_filter.mp hrmem).1
    refine ⟨none, some r, Or.inr (by simp), ?_, ?_, rfl, rfl⟩
    · intro x hx
      exact absurd hx (by simp)
    · intro x hx
      exact (Option.some.inj hx) ▸ hrcx

/-- Witness for C9 at the singleton KPI input `[regK7]`. -/
theorem merge_prefere_kpi_instancia :
    ∃ ol oc : Option RegistroEntrada,
      (ol ≠ none ∨ oc ≠ none)
      ∧ (∀ l, ol = some l → l ∈ [regK7]) ∧ (∀ r, oc = some r → r ∈ ([] : List RegistroEntrada))
      ∧ (mkLinha (some regK7) none 7).nome
          = consolida (ol.bind RegistroEntrada.nome) (oc.bind RegistroEntrada.nome)
      ∧ (mkLinha (some regK7) none 7).cpf
          = consolida (ol.bind RegistroEntrada.cpf) (oc.bind RegistroEntrada.cpf) :=
  merge_prefere_kpi [regK7] [] (mkLinha (some regK7) none 7) (by decide)

/-- Unfolding equation of the aggregator on a present trip frame. -/
theorem processar_mk (hoje : Int) (cols : List String) (rows : List LinhaViagem)
    (cad : Option (List LinhaCadastro)) (cx : Option (List LinhaCaixas)) (metas : Metas) :
    processar_caixas_sincrono hoje (some ⟨cols, rows⟩) cad cx metas =
      match acumular cols (cols.filter (fun c => comecaCom "CODJ_" c))
          (mapasMotorista hoje cad).2 (mapasAjudante hoje cad).2
          (constroiMapaCaixas cx) rows ([], []) with
      | .error e => .error e
      | .ok acc =>
        match emitir (mapasMotorista hoje cad).2 (mapasMotorista hoje cad).1
            metas.motorista acc.1 with
        | .error e => .error e
        | .ok resM =>
          match emitir (mapasAjudante hoje cad).2 (mapasAjudante hoje cad).1
              metas.ajudante acc.2 with
          | .error e => .error e
          | .ok resJ => .ok (isortNome resM, isortNome resJ) := rfl

/-- A trip row whose box count resolves to 0 leaves the accumulators
untouched (`caixas.py` line 71). -/
theorem passoViagem_zero (cols colunas : List String) (mi ai : List (Int × InfoPessoa))
    (mcx : List (Cell × Cell)) (acc : List (Int × PyNum) × List (Int × PyNum))
    (v : LinhaViagem) (hz : resolveZero cols mcx v = true) :
    passoViagem cols colunas mi ai mcx acc v = .ok acc := by
  unfold resolveZero at hz
  unfold passoViagem
  cases hf : floatDeCell
      ((procuraCell mcx
        (Cell.str (pyStr (serieGet cols v "MAPA" (Cell.str ""))))).getD (Cell.num 0)) with
  | error e =>
    rw [hf] at hz
    simp at hz
  | ok n =>
    rw [hf] at hz
    have hz2 : n.ehZero = true := hz
    simp [hz2]

/-- Filtering out the rows that resolve to a zero box count does not
change the accumulation. -/
theorem acumular_filtra (cols colunas : List String) (mi ai : List (Int × InfoPessoa))
    (mcx : List (Cell × Cell)) :
    ∀ (rows : List LinhaViagem) (acc : List (Int × PyNum) × List (Int × PyNum)),
      acumular cols colunas mi ai mcx (rows.filter (fun v => !(resolveZero cols mcx v))) acc
        = acumular cols colunas mi ai mcx rows acc := by
  intro rows
  induction rows with
  | nil => intro acc; rfl
  | cons v t ih =>
    intro acc
    by_cases hz : resolveZero cols mcx v = true
    · have hfilter : List.filter (fun v => !(resolveZero cols mcx v)) (v :: t)
          = List.filter (fun v => !(resolveZero cols mcx v)) t := by
        simp [List.filter_cons, hz]
      rw [hfilter, ih]
      conv_rhs => rw [acumular]
      rw [passoViagem_zero cols colunas mi ai mcx acc v hz]
    · have hb : (!(resolveZero cols mcx v)) = true := by simp [hz]
      have hfilter : List.filter (fun v => !(resolveZero cols mcx v)) (v :: t)
          = v :: List.filter (fun v => !(resolveZero cols mcx v)) t := by
        simp [List.filter_cons, hb]
      rw [hfilter]
      simp only [acumular]
      cases hp : passoViagem cols colunas mi ai mcx acc v with
      | error e => rfl
      | ok acc2 => exact ih acc2

/-- C7: removing from the trip input every row whose trip identifier
resolves to a box count of 0 yields exactly the same aggregator result
(both the driver and the helper sequences), with the registry, box-count
and rate tables unchanged. -/
theorem filtrar_mapas_zero_mesma_saida (hoje : Int) (cols : List String)
    (rows : List LinhaViagem) (cad : Option (List LinhaCadastro))
    (cx : Option (List LinhaCaixas)) (metas : Metas) :
    processar_caixas_sincrono hoje
        (some ⟨cols, rows.filter (fun v => !(resolveZero cols (constroiMapaCaixas cx) v))⟩)
        cad cx metas
      = processar_caixas_sincrono hoje (some ⟨cols, rows⟩) cad cx metas := by
  rw [processar_mk, processar_mk, acumular_filtra]

/-- Updating via `atualizaSoma` only ever touches its own key: if that key is in the
info map and every accumulated key already is, the invariant persists. -/
theorem atualizaSoma_chaves (info : List (Int × InfoPessoa)) (k : Int) (cx : PyNum) :
    ∀ (m : List (Int × PyNum)), contem info k = true →
      (∀ p ∈ m, contem info p.1 = true) →
      ∀ p ∈ atualizaSoma k cx m, contem info p.1 = true := by
  intro m
  induction m with
  | nil =>
    intro hk _ p hp
    simp only [atualizaSoma, List.mem_singleton] at hp
    subst hp
    exact hk
  | cons q t ih =>
    obtain ⟨a, b⟩ := q
    intro hk hinv p hp
    by_cases ha : a = k
    · simp only [atualizaSoma, if_pos ha] at hp
      rcases List.mem_cons.mp hp with h1 | h1
      · subst h1
        show contem info a = true
        rw [ha]
        exact hk
      · exact hinv p (List.mem_cons_of_mem _ h1)
    · simp only [atualizaSoma, if_neg ha] at hp
      rcases List.mem_cons.mp hp with h1 | h1
      · subst h1
        exact hinv (a, b) (List.mem_cons_self _ _)
      · exact ih hk (fun p hp => hinv p (List.mem_cons_of_mem _ hp)) p h1

/-- One helper-column step only accumulates registered helper codes. -/
theorem passoAjudanteCol_chaves (cols : List String) (ai : List (Int × InfoPessoa))
    (cx : PyNum) (viagem : LinhaViagem) (m : List (Int × PyNum)) (col : String)
    (hinv : ∀ p ∈ m, contem ai p.1 = true) :
    ∀ p ∈ passoAjudanteCol cols ai cx viagem m col, contem ai p.1 = true := by
  intro p
  unfold passoAjudanteCol
  cases hn : paraNumericoCoagido (serieGet cols viagem col Cell.na) with
  | nan => exact hinv p
  | val q =>
    intro hp
    have hp2 : p ∈ (if q = 0 then m
        else if contem ai (truncaFrac q) then atualizaSoma (truncaFrac q) cx m else m) := hp
    by_cases hq : q = 0
    · rw [if_pos hq] at hp2
      exact hinv p hp2
    · rw [if_neg hq] at hp2
      by_cases hc : contem ai (truncaFrac q) = true
      · rw [if_pos hc] at hp2
        exact atualizaSoma_chaves ai (truncaFrac q) cx m hc hinv p hp2
      · rw [if_neg hc] at hp2
        exact hinv p hp2

/-- The fold over all helper columns preserves the invariant. -/
theorem foldl_ajudantes_chaves (cols : List String) (ai : List (Int × InfoPessoa))
    (cx : PyNum) (viagem : LinhaViagem) :
    ∀ (colunas : List String) (m : List (Int × PyNum)),
      (∀ p ∈ m, contem ai p.1 = true) →
      ∀ p ∈ List.foldl (passoAjudanteCol cols ai cx viagem) m colunas,
        contem ai p.1 = true := by
  intro colunas
  induction colunas with
  | nil => intro m hinv p hp; exact hinv p hp
  | cons c t ih =>
    intro m hinv p hp
    exact ih (passoAjudanteCol cols ai cx viagem m c)
      (passoAjudanteCol_chaves cols ai cx viagem m c hinv) p hp

/-- One trip row preserves the invariant that every accumulated driver
(helper) key is registered in the driver (helper) info map. -/
theorem passoViagem_chaves (cols colunas : List String) (mi ai : List (Int × InfoPessoa))
    (mcx : List (Cell × Cell)) (acc acc2 : List (Int × PyNum) × List (Int × PyNum))
    (v : LinhaViagem) (h : passoViagem cols colunas mi ai mcx acc v = .ok acc2)
    (hinvM : ∀ p ∈ acc.1, contem mi p.1 = true)
    (hinvJ : ∀ p ∈ acc.2, contem ai p.1 = true) :
    (∀ p ∈ acc2.1, contem mi p.1 = true) ∧ (∀ p ∈ acc2.2, contem ai p.1 = true) := by
  unfold passoViagem at h
  cases hf : floatDeCell
      ((procuraCell mcx
        (Cell.str (pyStr (serieGet cols v "MAPA" (Cell.str ""))))).getD (Cell.num 0)) with
  | error e =>
    rw [hf] at h
    simp at h
  | ok n =>
    rw [hf] at h
    by_cases hz : n.ehZero = true
    · have h2 : (if n.ehZero then Except.ok acc
          else match intDeCell (serieGet cols v "COD" (Cell.num 0)) with
            | .error e => Except.error e
            | .ok cod_motorista =>
              Except.ok
                (if contem mi cod_motorista then atualizaSoma cod_motorista n acc.1 else acc.1,
                 List.foldl (passoAjudanteCol cols ai n v) acc.2 colunas)) = .ok acc2 := h
      rw [if_pos hz] at h2
      injection h2 with h3
      subst h3
      exact ⟨hinvM, hinvJ⟩
    · have h2 : (if n.ehZero then Except.ok acc
          else match intDeCell (serieGet cols v "COD" (Cell.num 0)) with
            | .error e => Except.error e
            | .ok cod_motorista =>
              Except.ok
                (if contem mi cod_motorista then atualizaSoma cod_motorista n acc.1 else acc.1,
                 List.foldl (passoAjudanteCol cols ai n v) acc.2 colunas)) = .ok acc2 := h
      rw [if_neg hz] at h2
      cases hcod : intDeCell (serieGet cols v "COD" (Cell.num 0)) with
      | error e =>
        rw [hcod] at h2
        simp at h2
      | ok cod =>
        rw [hcod] at h2
        have h3 : Except.ok
            ((if contem mi cod then atualizaSoma cod n acc.1 else acc.1,
              List.foldl (passoAjudanteCol cols ai n v) acc.2 colunas) :
              List (Int × PyNum) × List (Int × PyNum)) = Except.ok acc2 := h2
        injection h3 with h4
        subst h4
        constructor
        · intro p hp
          have hp2 : p ∈ (if contem mi cod then atualizaSoma cod n acc.1 else acc.1) := hp
          by_cases hc : contem mi cod = true
          · rw [if_pos hc] at hp2
            exact atualizaSoma_chaves mi cod n acc.1 hc hinvM p hp2
          · rw [if_neg hc] at hp2
            exact hinvM p hp2
        · intro p hp
          exact foldl_ajudantes_chaves cols ai n v colunas acc.2 hinvJ p hp

/-- The whole accumulation loop preserves the registration invariant. -/
theorem acumular_chaves (cols colunas : List String) (mi ai : List (Int × InfoPessoa))
    (mcx : List (Cell × Cell)) :
    ∀ (rows : List LinhaViagem) (acc acc2 : List (Int × PyNum) × List (Int × PyNum)),
      acumular cols colunas mi ai mcx rows acc = .ok acc2 →
      (∀ p ∈ acc.1, contem mi p.1 = true) →
      (∀ p ∈ acc.2, contem ai p.1 = true) →
      (∀ p ∈ acc2.1, contem mi p.1 = true) ∧ (∀ p ∈ acc2.2, contem ai p.1 = true) := by
  intro rows
  induction rows with
  | nil =>
    intro acc acc2 h h1 h2
    have h3 : Except.ok acc = Except.ok acc2 := h
    injection h3 with h4
    subst h4
    exact ⟨h1, h2⟩
  | cons v t ih =>
    intro acc acc2 h h1 h2
    simp only [acumular] at h
    cases hp : passoViagem cols colunas mi ai mcx acc v with
    | error e =>
      rw [hp] at h
      simp at h
    | ok a2 =>
      rw [hp] at h
      obtain ⟨j1, j2⟩ := passoViagem_chaves cols colunas mi ai mcx acc a2 v hp h1 h2
      exact ih a2 acc2 h j1 j2

/-- Every record emitted for an accumulator whose keys are all registered
takes its name and CPF from the info-map entry of its code (the
`{"cpf": "N/A", "nome": "COD ..."}` placeholder is never used). -/
theorem emitir_identidade (info : List (Int × InfoPessoa)) (antig : List (Int × Int))
    (metas : MetasColab) :
    ∀ (lst : List (Int × PyNum)) (out : List Resultado),
      emitir info antig metas lst = .ok out →
      (∀ p ∈ lst, contem info p.1 = true) →
      ∀ r ∈ out, ∃ i, procura info r.cod = some i ∧ r.nome = i.nome ∧ r.cpf = i.cpf := by
  intro lst
  induction lst with
  | nil =>
    intro out h _ r hr
    have h2 : Except.ok ([] : List Resultado) = Except.ok out := h
    injection h2 with h3
    subst h3
    simp at hr
  | cons p t ih =>
    obtain ⟨cod, total⟩ := p
    intro out h hc r hr
    simp only [emitir] at h
    by_cases hz : total.ehZero = true
    · rw [if_pos hz] at h
      exact ih out h (fun p hp => hc p (List.mem_cons_of_mem _ hp)) r hr
    · rw [if_neg hz] at h
      cases hm : PyNum.vezesCell total
          (_get_valor_por_caixa ((procura antig cod).getD 0) metas) with
      | error e =>
        rw [hm] at h
        simp at h
      | ok premio =>
        rw [hm] at h
        cases he : emitir info antig metas t with
        | error e =>
          rw [he] at h
          simp at h
        | ok resto =>
          rw [he] at h
          have hcod : contem info cod = true := hc (cod, total) (List.mem_cons_self _ _)
          obtain ⟨i0, hi0⟩ := Option.isSome_iff_exists.mp hcod
          have h2 : Except.ok
              (({ cpf := ((procura info cod).getD ⟨"COD " ++ intParaStr cod, "N/A"⟩).cpf,
                  cod := cod,
                  nome := ((procura info cod).getD ⟨"COD " ++ intParaStr cod, "N/A"⟩).nome,
                  total_caixas := total,
                  valor_por_caixa := _get_valor_por_caixa ((procura antig cod).getD 0) metas,
                  total_premio := premio,
                  antiguidade_dias := (procura antig cod).getD 0 } : Resultado) :: resto)
              = Except.ok out := h
          injection h2 with h3
          subst h3
          rcases List.mem_cons.mp hr with h4 | h4
          · subst h4
            refine ⟨i0, ?_, ?_, ?_⟩
            · show procura info cod = some i0
              exact hi0
            · show ((procura info cod).getD _).nome = i0.nome
              rw [hi0]
              rfl
            · show ((procura info cod).getD _).cpf = i0.cpf
              rw [hi0]
              rfl
          · exact ih resto he (fun p hp => hc p (List.mem_cons_of_mem _ hp)) r h4

/-- Insertion keeps membership within the inserted element and the list. -/
theorem mem_insereNome (r x : Resultado) :
    ∀ (l : List Resultado), x ∈ insereNome r l → x = r ∨ x ∈ l := by
  intro l
  induction l with
  | nil =>
    intro h
    simp only [insereNome, List.mem_singleton] at h
    exact Or.inl h
  | cons y t ih =>
    intro h
    unfold insereNome at h
    by_cases hle : nomeLe r y = true
    · rw [if_pos hle] at h
      rcases List.mem_cons.mp h with h1 | h1
      · exact Or.inl h1
      · exact Or.inr h1
    · rw [if_neg hle] at h
      rcases List.mem_cons.mp h with h1 | h1
      · subst h1
        exact Or.inr (List.mem_cons_self _ _)
      · rcases ih h1 with h2 | h2
        · exact Or.inl h2
        · exact Or.inr (List.mem_cons_of_mem _ h2)

/-- The name sort does not add rows. -/
theorem mem_isortNome (x : Resultado) :
    ∀ (l : List Resultado), x ∈ isortNome l → x ∈ l := by
  intro l
  induction l with
  | nil => intro h; exact h
  | cons y t ih =>
    intro h
    unfold isortNome at h
    rcases mem_insereNome y x (isortNome t) h with h1 | h1
    · subst h1
      exact List.mem_cons_self _ _
    · exact List.mem_cons_of_mem _ (ih h1)

/-- C10: every record the aggregator emits carries the name and CPF found
in the registry info map for its code — boxes only accumulate for codes
present in the registry, so the placeholder-identity branch
(`cpf "N/A"`, `nome "COD {code}"`) is unreachable and no output record
ever carries it. -/
theorem agregador_usa_cadastro (hoje : Int) (dfv : Option FrameViagens)
    (cad : Option (List LinhaCadastro)) (cx : Option (List LinhaCaixas)) (metas : Metas)
    (res : List Resultado × List Resultado)
    (h : processar_caixas_sincrono hoje dfv cad cx metas = .ok res) :
    (∀ r ∈ res.1, ∃ i, procura (mapasMotorista hoje cad).2 r.cod = some i
        ∧ r.nome = i.nome ∧ r.cpf = i.cpf)
    ∧ (∀ r ∈ res.2, ∃ i, procura (mapasAjudante hoje cad).2 r.cod = some i
        ∧ r.nome = i.nome ∧ r.cpf = i.cpf) := by
  cases dfv with
  | none => exact absurd h (by simp [processar_caixas_sincrono])
  | some f =>
    obtain ⟨cols, rows⟩ := f
    rw [processar_mk] at h
    cases ha : acumular cols (cols.filter (fun c => comecaCom "CODJ_" c))
        (mapasMotorista hoje cad).2 (mapasAjudante hoje cad).2
        (constroiMapaCaixas cx) rows ([], []) with
    | error e =>
      rw [ha] at h
      simp at h
    | ok acc =>
      rw [ha] at h
      have hh : (match emitir (mapasMotorista hoje cad).2 (mapasMotorista hoje cad).1
            metas.motorista acc.1 with
          | Except.error e => Except.error e
          | Except.ok resM =>
            match emitir (mapasAjudante hoje cad).2 (mapasAjudante hoje cad).1
                metas.ajudante acc.2 with
            | Except.error e => Except.error e
            | Except.ok resJ => Except.ok (isortNome resM, isortNome resJ))
          = Except.ok res := h
      cases hm : emitir (mapasMotorista hoje cad).2 (mapasMotorista hoje cad).1
          metas.motorista acc.1 with
      | error e =>
        rw [hm] at hh
        simp at hh
      | ok resM =>
        rw [hm] at hh
        cases hj : emitir (mapasAjudante hoje cad).2 (mapasAjudante hoje cad).1
            metas.ajudante acc.2 with
        | error e =>
          rw [hj] at hh
          simp at hh
        | ok resJ =>
          rw [hj] at hh
          have h2 : Except.ok ((isortNome resM, isortNome resJ) :
              List Resultado × List Resultado) = Except.ok res := hh
          injection h2 with h3
          subst h3
          have hacc := acumular_chaves cols (cols.filter (fun c => comecaCom "CODJ_" c))
            (mapasMotorista hoje cad).2 (mapasAjudante hoje cad).2
            (constroiMapaCaixas cx) rows ([], []) acc ha (by simp) (by simp)
          constructor
          · intro r hr
            exact emitir_identidade (mapasMotorista hoje cad).2 (mapasMotorista hoje cad).1
              metas.motorista acc.1 resM hm hacc.1 r (mem_isortNome r resM hr)
          · intro r hr
            exact emitir_identidade (mapasAjudante hoje cad).2 (mapasAjudante hoje cad).1
              metas.ajudante acc.2 resJ hj hacc.2 r (mem_isortNome r resJ hr)

/-- Witness for C10 on the concrete two-driver example: the aggregator
output `resEx` is produced (`rfl` discharges the evaluation hypothesis)
and each of its records carries the registry identity of its code. -/
theorem agregador_usa_cadastro_instancia :
    (∀ r ∈ resEx.1, ∃ i, procura (mapasMotorista 1000 (some [cadAna, cadBia])).2 r.cod = some i
        ∧ r.nome = i.nome ∧ r.cpf = i.cpf)
    ∧ (∀ r ∈ resEx.2, ∃ i, procura (mapasAjudante 1000 (some [cadAna, cadBia])).2 r.cod = some i
        ∧ r.nome = i.nome ∧ r.cpf = i.cpf) :=
  agregador_usa_cadastro 1000 (some frameEx) (some [cadAna, cadBia]) (some cxEx) metasEx
    resEx rfl

/-! ### Supporting facts about the two guarded routes

The divergences of C3 and C4 are confined to the export route; the
box-only report and the combined payment report do behave as the spec
says, which the four theorems below record. -/

/-- The box-only report skips the aggregation and returns empty lists
plus the combined fetch error whenever one fetch failed. -/
theorem caixas_erro_fetch_vazio (hoje : Int) (user : Usuario) (metas : Metas)
    (fv : Option FrameViagens × Option String)
    (fc : Option (List LinhaCadastro) × Option String)
    (fx : Option (List LinhaCaixas) × Option String) (e : String)
    (h : (fv.2 <|> fc.2 <|> fx.2) = some e) :
    ler_relatorio_caixas hoje user metas fv fc fx = .ok ⟨[], [], some e⟩ := by
  unfold ler_relatorio_caixas
  rw [h]
  cases hrole : user.role != "admin" <;> simp [hrole]

/-- The combined payment report returns empty lists plus the fetch error
whenever `_get_dados_completos` reported one. -/
theorem pagamento_erro_fetch_vazio (hoje : Int) (user : Usuario) (dados : DadosCompletos)
    (m_kpi a_kpi : List RegistroEntrada) (e : String)
    (h : dados.error_message = some e) :
    ler_relatorio_pagamento hoje user dados m_kpi a_kpi = ⟨[], [], some e⟩ := by
  unfold ler_relatorio_pagamento
  rw [h]
  simp

/-- Every row the box-only report returns to a non-admin caller matches
the caller's punctuation-stripped CPF. -/
theorem caixas_filtro_cpf_nao_admin (hoje : Int) (user : Usuario) (metas : Metas)
    (fv : Option FrameViagens × Option String)
    (fc : Option (List LinhaCadastro) × Option String)
    (fx : Option (List LinhaCaixas) × Option String) (saida : SaidaCaixas)
    (hrole : (user.role != "admin") = true)
    (h : ler_relatorio_caixas hoje user metas fv fc fx = .ok saida) :
    (∀ r ∈ saida.motoristas, tiraPontuacao r.cpf = tiraPontuacao user.username)
    ∧ (∀ r ∈ saida.ajudantes, tiraPontuacao r.cpf = tiraPontuacao user.username) := by
  unfold ler_relatorio_caixas at h
  have h0 : (match (match (fv.2 <|> fc.2 <|> fx.2 : Option String) with
        | some _ => Except.ok (([], []) : List Resultado × List Resultado)
        | none => processar_caixas_sincrono hoje fv.1 fc.1 fx.1 metas) with
      | Except.error e => (Except.error e : Except String SaidaCaixas)
      | Except.ok res =>
        if user.role != "admin" then
          Except.ok ⟨res.1.filter (fun m => tiraPontuacao m.cpf == tiraPontuacao user.username),
                     res.2.filter (fun a => tiraPontuacao a.cpf == tiraPontuacao user.username),
                     fv.2 <|> fc.2 <|> fx.2⟩
        else Except.ok ⟨res.1, res.2, fv.2 <|> fc.2 <|> fx.2⟩) = Except.ok saida := h
  cases hp : (match (fv.2 <|> fc.2 <|> fx.2 : Option String) with
      | some _ => Except.ok (([], []) : List Resultado × List Resultado)
      | none => processar_caixas_sincrono hoje fv.1 fc.1 fx.1 metas) with
  | error e2 =>
    rw [hp] at h0
    simp at h0
  | ok res =>
    rw [hp] at h0
    have h2 : (if user.role != "admin" then
        Except.ok (⟨res.1.filter (fun m => tiraPontuacao m.cpf == tiraPontuacao user.username),
                    res.2.filter (fun a => tiraPontuacao a.cpf == tiraPontuacao user.username),
                    fv.2 <|> fc.2 <|> fx.2⟩ : SaidaCaixas)
      else Except.ok ⟨res.1, res.2, fv.2 <|> fc.2 <|> fx.2⟩) = Except.ok saida := h0
    rw [if_pos hrole] at h2
    injection h2 with h3
    subst h3
    constructor <;> intro r hr
    · exact eq_of_beq (List.mem_filter.mp hr).2
    · exact eq_of_beq (List.mem_filter.mp hr).2

/-- Every row the combined payment report returns to a non-admin caller
matches the caller's punctuation-stripped CPF. -/
theorem pagamento_filtro_cpf_nao_admin (hoje : Int) (user : Usuario)
    (dados : DadosCompletos) (m_kpi a_kpi : List RegistroEntrada) (saida : SaidaPagamento)
    (hrole : (user.role != "admin") = true)
    (h : ler_relatorio_pagamento hoje user dados m_kpi a_kpi = saida) :
    (∀ r ∈ saida.motoristas, tiraPontuacao r.cpf = tiraPontuacao user.username)
    ∧ (∀ r ∈ saida.ajudantes, tiraPontuacao r.cpf = tiraPontuacao user.username) := by
  unfold ler_relatorio_pagamento at h
  by_cases he : dados.error_message.isSome
  · rw [if_pos he] at h
    subst h
    constructor <;> intro r hr <;> simp at hr
  · rw [if_neg he] at h
    cases hp : processar_caixas_sincrono hoje dados.df_viagens_dedup dados.df_cadastro
        dados.df_caixas dados.metas with
    | error e =>
      rw [hp] at h
      have h2 : (⟨[], [],
          some "Erro interno no servidor. Consulte os logs do Backend para o traceback."⟩ :
            SaidaPagamento) = saida := h
      subst h2
      constructor <;> intro r hr <;> simp at hr
    | ok resCx =>
      rw [hp] at h
      have h2 : (if user.role != "admin" then
          (⟨(_merge_resultados m_kpi a_kpi (resCx.1.map registroDeResultado)
                (resCx.2.map registroDeResultado)).1.filter
                  (fun r => tiraPontuacao r.cpf == tiraPontuacao user.username),
             (_merge_resultados m_kpi a_kpi (resCx.1.map registroDeResultado)
                (resCx.2.map registroDeResultado)).2.filter
                  (fun r => tiraPontuacao r.cpf == tiraPontuacao user.username),
             none⟩ : SaidaPagamento)
        else ⟨(_merge_resultados m_kpi a_kpi (resCx.1.map registroDeResultado)
                (resCx.2.map registroDeResultado)).1,
              (_merge_resultados m_kpi a_kpi (resCx.1.map registroDeResultado)
                (resCx.2.map registroDeResultado)).2, none⟩) = saida := h
      rw [if_pos hrole] at h2
      subst h2
      constructor <;> intro r hr
      · exact eq_of_beq (List.mem_filter.mp hr).2
      · exact eq_of_beq (List.mem_filter.mp hr).2

end Entrega
